import Mathlib

/-!
# Verification of the Diode edge wire-protocol engine

A shallow embedding of the client-side edge protocol engine (Go package
`edge`, implementation `RLP_V2`): the pivot tables, the method-sniffing
dispatcher `parseResponse` / `parseInboundRequest`, the RLP binary codec
used by `NewMessage`, the ticket-reply interpreter
`parseDeviceTicketResponse`, the block-header integrity check in
`parseBlockHeaderResponse`, and the error paths of `parseError` and
`ResponseID`.

Byte strings are modelled as `List Nat`; Go's `bytes.Contains` becomes
`bytesContains`. The external `rlp` package (a separate module of the
repository) is modelled as an executable RLP codec over a recursive
`Item` grammar, following the spec's nested-value grammar (byte string /
unsigned integer / list, length-prefixed).
-/

namespace Edge

/-- Byte strings on the wire; each entry is one byte value. -/
abbrev Bytes := List Nat

/-- The ASCII byte values of a string literal. -/
def strBytes (s : String) : Bytes := s.data.map Char.toNat

/-- Go `bytes.Contains(buffer, piv)`: `piv` occurs in `buffer` as a
contiguous subslice. -/
def bytesContains (buffer piv : Bytes) : Bool :=
  piv.isPrefixOf buffer ||
    match buffer with
    | [] => false
    | _ :: t => bytesContains t piv

/-! ## The pivot tables (the `var` block of the dispatcher file) -/

def responsePivot : Bytes := strBytes ("response")
def errorPivot : Bytes := strBytes ("error")
def ticketTooOldPivot : Bytes := strBytes ("too_old")
def ticketTooLowPivot : Bytes := strBytes ("too_low")
def ticketThanksPivot : Bytes := strBytes ("thanks!")
def portOpenPivot : Bytes := strBytes ("portopen")
def portSendPivot : Bytes := strBytes ("portsend")
def portClosePivot : Bytes := strBytes ("portclose")
def goodbyePivot : Bytes := strBytes ("goodbye")
def blockPivot : Bytes := strBytes ("getblock")
def block2Pivot : Bytes := strBytes ("getblock2")
def blockHeaderPivot : Bytes := strBytes ("getblockheader")
def blockHeader2Pivot : Bytes := strBytes ("getblockheader2")
def blockquickPivot : Bytes := strBytes ("getblockquick")
def blockquick2Pivot : Bytes := strBytes ("getblockquick2")
def blockPeakPivot : Bytes := strBytes ("getblockpeak")
def accountRootsPivot : Bytes := strBytes ("getaccountroots")
def accountValuePivot : Bytes := strBytes ("getaccountvalue")
def accountPivot : Bytes := strBytes ("getaccount")
def stateRootsPivot : Bytes := strBytes ("getstateroots")
def objectPivot : Bytes := strBytes ("getobject")
def nodePivot : Bytes := strBytes ("getnode")
def ticketPivot : Bytes := strBytes ("getticket")
def helloPivot : Bytes := strBytes ("hello")

/-- The method tokens of the wire-format interface (spec §6). -/
def methodTokens : List Bytes :=
  [strBytes ("hello"), strBytes ("portopen"), strBytes ("portsend"),
   strBytes ("portclose"), strBytes ("goodbye"), strBytes ("getblock"),
   strBytes ("getblock2"), strBytes ("getblockheader"),
   strBytes ("getblockheader2"), strBytes ("getblockquick"),
   strBytes ("getblockquick2"), strBytes ("getblockpeak"),
   strBytes ("getaccount"), strBytes ("getaccountvalue"),
   strBytes ("getaccountroots"), strBytes ("getstateroots"),
   strBytes ("getobject"), strBytes ("getnode"), strBytes ("ticket")]

/-! ## The dispatcher -/

/-- Errors surfaced by the engine: the `fmt.Errorf` values of the `var`
block, the block-hash mismatch error of `parseBlockHeaderResponse`, and
`decodeFail` for an error returned by `rlp.Decode`. -/
inductive EdgeErr
  | responseHandlerNotFound
  | failedToParseTicket
  | rpcNotSupport
  | blockHashMismatch
  | decodeFail
  deriving DecidableEq, Repr

/-- The typed response decoders `parseResponse` can dispatch to, one tag
per `parseXResponse` method. -/
inductive Decoder
  | portOpen
  | block
  | blockHeader
  | blockquick
  | blockPeak
  | account
  | accountValue
  | accountRoots
  | stateRoots
  | deviceObject
  | serverObj
  | deviceTicket
  deriving DecidableEq, Repr

/-- `RLP_V2.parseResponse`: classify a raw inbound buffer by scanning for
pivot markers with `bytes.Contains`, in the if/else-if order of the
source; each branch's call of the corresponding `parseXResponse` decoder
is represented by that decoder's tag. The fall-through returns
`ErrResponseHandlerNotFound`. -/
def parseResponse (buffer : Bytes) : Except EdgeErr Decoder :=
  if bytesContains buffer portOpenPivot then .ok .portOpen
  else if bytesContains buffer blockPivot then .ok .block
  else if bytesContains buffer block2Pivot then .ok .block
  else if bytesContains buffer blockHeaderPivot then .ok .blockHeader
  else if bytesContains buffer blockHeader2Pivot then .ok .blockHeader
  else if bytesContains buffer blockquickPivot then .ok .blockquick
  else if bytesContains buffer blockquick2Pivot then .ok .blockquick
  else if bytesContains buffer blockPeakPivot then .ok .blockPeak
  else if bytesContains buffer accountPivot then .ok .account
  else if bytesContains buffer accountValuePivot then .ok .accountValue
  else if bytesContains buffer accountRootsPivot then .ok .accountRoots
  else if bytesContains buffer stateRootsPivot then .ok .stateRoots
  else if bytesContains buffer objectPivot then .ok .deviceObject
  else if bytesContains buffer nodePivot then .ok .serverObj
  else if bytesContains buffer ticketPivot then .ok .deviceTicket
  else .error .responseHandlerNotFound

/-- The inbound-request parsers `parseInboundRequest` can dispatch to. -/
inductive InboundKind
  | portOpen
  | portSend
  | portClose
  | goodbye
  deriving DecidableEq, Repr

/-- `RLP_V2.parseInboundRequest`: classify an inbound request buffer by
pivot markers; each branch's `parseInboundXRequest` call is represented
by its tag. The result is the Go pair `(req, err)`; the final bare
`return` of the source yields `(none, none)`. -/
def parseInboundRequest (buffer : Bytes) : Option InboundKind × Option EdgeErr :=
  if bytesContains buffer portOpenPivot then (some .portOpen, none)
  else if bytesContains buffer portSendPivot then (some .portSend, none)
  else if bytesContains buffer portClosePivot then (some .portClose, none)
  else if bytesContains buffer goodbyePivot then (some .goodbye, none)
  else (none, none)

/-- `RLP_V2.IsResponseType`. -/
def IsResponseType (rawData : Bytes) : Bool := bytesContains rawData responsePivot

/-- `RLP_V2.IsErrorType`. -/
def IsErrorType (rawData : Bytes) : Bool := bytesContains rawData errorPivot

/-! ## The RLP codec

Modelled from the spec: the external `rlp` codec module is not under
`src/`; spec §3 and §4.1 describe it as a self-describing, recursive,
length-prefixed list/string binary format (RLP), with unsigned integers
travelling as minimal big-endian byte strings. -/

/-- A nested wire value: byte string or ordered list of values. -/
inductive Item
  | str (bs : Bytes)
  | list (items : List Item)

/-- Minimal big-endian byte string of a natural number (the RLP integer
encoding: empty for zero, no leading zero byte). -/
def beBytes : Nat → Bytes
  | 0 => []
  | n+1 => beBytes ((n + 1) / 256) ++ [(n + 1) % 256]
decreasing_by exact Nat.div_lt_self (Nat.succ_pos n) (by omega)

/-- Big-endian value of a byte string. -/
def natFromBe (bs : Bytes) : Nat := bs.foldl (fun acc b => acc * 256 + b) 0

/-- RLP length header: `offset` is 128 for strings, 192 for lists. -/
def encodeLength (offset len : Nat) : Bytes :=
  if len ≤ 55 then [offset + len]
  else (offset + 55 + (beBytes len).length) :: beBytes len

/-- RLP encoding of a byte string: a single byte below 128 encodes as
itself, otherwise a length header precedes the bytes. -/
def encodeBytes : Bytes → Bytes
  | [] => encodeLength 128 0
  | [b] => if b < 128 then [b] else [129, b]
  | a :: b :: t => encodeLength 128 (a :: b :: t).length ++ (a :: b :: t)

mutual
/-- RLP encoding of one nested value (external `rlp.EncodeToBytes`). -/
def encodeItem : Item → Bytes
  | .str bs => encodeBytes bs
  | .list items => encodeLength 192 (encodeList items).length ++ encodeList items

/-- RLP encoding of a sequence of values (a list payload). -/
def encodeList : List Item → Bytes
  | [] => []
  | i :: is => encodeItem i ++ encodeList is
end

mutual
/-- Every byte string of the value is shorter than `2^64` bytes — true
of every Go slice; the one-byte-count field of a long string header
requires it. -/
def itemOk : Item → Bool
  | .str bs => decide (bs.length < 18446744073709551616)
  | .list items => listOk items

/-- `itemOk` for each member. -/
def listOk : List Item → Bool
  | [] => true
  | i :: is => itemOk i && listOk is
end

/-- One decoding step of the external `rlp` stream decoder, with the
decoder for list payloads passed in as `items`: read one value off the
front of `input` and return it with the remaining bytes. -/
def decodeOneWith (items : Bytes → Option (List Item)) (input : Bytes) :
    Option (Item × Bytes) :=
  match input with
  | [] => none
  | b :: rest =>
    if b < 128 then some (.str [b], rest)
    else if b ≤ 183 then
      let len := b - 128
      if rest.length < len then none
      else some (.str (rest.take len), rest.drop len)
    else if b < 192 then
      let lenlen := b - 183
      if rest.length < lenlen then none
      else
        let len := natFromBe (rest.take lenlen)
        let tail := rest.drop lenlen
        if tail.length < len then none
        else some (.str (tail.take len), tail.drop len)
    else if b ≤ 247 then
      let len := b - 192
      if rest.length < len then none
      else
        match items (rest.take len) with
        | some is => some (.list is, rest.drop len)
        | none => none
    else
      let lenlen := b - 247
      if rest.length < lenlen then none
      else
        let len := natFromBe (rest.take lenlen)
        let tail := rest.drop lenlen
        if tail.length < len then none
        else
          match items (tail.take len) with
          | some is => some (.list is, tail.drop len)
          | none => none

/-- Decode an entire list payload into its member values; `fuel` bounds
the nesting depth and decreases when entering a nested list payload. -/
def decodeItems : Nat → Bytes → Option (List Item)
  | _, [] => some []
  | 0, _ :: _ => none
  | fuel + 1, b :: t =>
    match decodeOneWith (decodeItems fuel) (b :: t) with
    | some (i, rest) =>
      match decodeItems fuel rest with
      | some is => some (i :: is)
      | none => none
    | none => none

/-- Read one value off the front of `input` (one step of the `rlp`
stream decoder). -/
def decodeOne : Nat → Bytes → Option (Item × Bytes)
  | 0, _ => none
  | fuel + 1, input => decodeOneWith (decodeItems fuel) input

/-- Decode a whole buffer as exactly one RLP value (the `rlp.Stream`
decode of one top-level value consuming the buffer). -/
def rlpDecode (input : Bytes) : Option Item :=
  match decodeOne input.length input with
  | some (item, []) => some item
  | _ => none

mutual
/-- Fuel needed by `decodeOne` for a given value. -/
def itemSize : Item → Nat
  | .str _ => 1
  | .list items => listSize items + 1

/-- Fuel needed by `decodeItems` for a given payload. -/
def listSize : List Item → Nat
  | [] => 0
  | i :: is => max (itemSize i) (listSize is + 1)
end

/-! ## Request records and `NewMessage`

The request struct types (`helloRequest`, `portSendRequest`, ...) are
declared in a file of the `edge` package that is not under `src/`; their
field lists are modelled from their construction sites in
`RLP_V2.NewMessage`: each is `{RequestID uint64; Payload struct {Method
string; <fields>}}`, RLP encoded as `[request_id, [method, args...]]`
(spec §3 "Envelope"). -/

/-- The RLP item of a `uint64` field. -/
def natItem (n : Nat) : Item := .str (beBytes n)

/-- One request record per `case` of `RLP_V2.NewMessage`, with the field
list read off the `request.Payload` assignments. -/
inductive Request
  | hello (flag : Nat)
  | portsend (ref : Nat) (data : Bytes)
  | portclose (ref : Nat)
  | getblock (blockNumber : Nat)
  | getblockpeak
  | getblockheader2 (blockNumber : Nat)
  | getblockquick2 (lastValid windowSize : Nat)
  | getaccount (blockNumber : Nat) (address : Bytes)
  | getaccountroots (blockNumber : Nat) (address : Bytes)
  | getaccountvalue (blockNumber : Nat) (address : Bytes) (key : Bytes)
  | ticket (blockNumber : Nat) (fleetAddr : Bytes)
      (totalConnections totalBytes : Nat) (localAddr deviceSig : Bytes)
  | portopen (deviceID : Bytes) (port : Nat) (mode : Bytes)
  | getobject (deviceID : Bytes)
  | getnode (serverID : Bytes)
  | getstateroots (blockNumber : Nat)
  deriving DecidableEq, Repr

/-- The `Payload.Method` field of the record. -/
def Request.methodName : Request → Bytes
  | .hello _ => strBytes ("hello")
  | .portsend _ _ => strBytes ("portsend")
  | .portclose _ => strBytes ("portclose")
  | .getblock _ => strBytes ("getblock")
  | .getblockpeak => strBytes ("getblockpeak")
  | .getblockheader2 _ => strBytes ("getblockheader2")
  | .getblockquick2 _ _ => strBytes ("getblockquick2")
  | .getaccount _ _ => strBytes ("getaccount")
  | .getaccountroots _ _ => strBytes ("getaccountroots")
  | .getaccountvalue _ _ _ => strBytes ("getaccountvalue")
  | .ticket _ _ _ _ _ _ => strBytes ("ticket")
  | .portopen _ _ _ => strBytes ("portopen")
  | .getobject _ => strBytes ("getobject")
  | .getnode _ => strBytes ("getnode")
  | .getstateroots _ => strBytes ("getstateroots")

/-- The RLP items of the payload fields after the method name, in struct
field order. -/
def Request.payloadArgs : Request → List Item
  | .hello flag => [natItem flag]
  | .portsend ref data => [natItem ref, .str data]
  | .portclose ref => [natItem ref]
  | .getblock blockNumber => [natItem blockNumber]
  | .getblockpeak => []
  | .getblockheader2 blockNumber => [natItem blockNumber]
  | .getblockquick2 lastValid windowSize => [natItem lastValid, natItem windowSize]
  | .getaccount blockNumber address => [natItem blockNumber, .str address]
  | .getaccountroots blockNumber address => [natItem blockNumber, .str address]
  | .getaccountvalue blockNumber address key =>
      [natItem blockNumber, .str address, .str key]
  | .ticket blockNumber fleetAddr totalConnections totalBytes localAddr deviceSig =>
      [natItem blockNumber, .str fleetAddr, natItem totalConnections,
       natItem totalBytes, .str localAddr, .str deviceSig]
  | .portopen deviceID port mode => [.str deviceID, natItem port, .str mode]
  | .getobject deviceID => [.str deviceID]
  | .getnode serverID => [.str serverID]
  | .getstateroots blockNumber => [natItem blockNumber]

/-- The nested value of a whole request envelope. -/
def requestToItem (requestID : Nat) (req : Request) : Item :=
  .list [natItem requestID, .list (.str req.methodName :: req.payloadArgs)]

/-- `rlp.EncodeToBytes(request)`: the wire bytes of a request record. -/
def encodeRequest (requestID : Nat) (req : Request) : Bytes :=
  encodeItem (requestToItem requestID req)

/-- Inverse of `Request.payloadArgs`/`Request.methodName`: rebuild the
record of the given method from decoded payload items, checking arity
and element kind as `rlp.Decode` into the request struct does. -/
def payloadToRequest (method : Bytes) (args : List Item) : Option Request :=
  if method = strBytes ("hello") then
    match args with
    | [.str flag] => some (.hello (natFromBe flag))
    | _ => none
  else if method = strBytes ("portsend") then
    match args with
    | [.str ref, .str data] => some (.portsend (natFromBe ref) data)
    | _ => none
  else if method = strBytes ("portclose") then
    match args with
    | [.str ref] => some (.portclose (natFromBe ref))
    | _ => none
  else if method = strBytes ("getblock") then
    match args with
    | [.str blockNumber] => some (.getblock (natFromBe blockNumber))
    | _ => none
  else if method = strBytes ("getblockpeak") then
    match args with
    | [] => some .getblockpeak
    | _ => none
  else if method = strBytes ("getblockheader2") then
    match args with
    | [.str blockNumber] => some (.getblockheader2 (natFromBe blockNumber))
    | _ => none
  else if method = strBytes ("getblockquick2") then
    match args with
    | [.str lastValid, .str windowSize] =>
        some (.getblockquick2 (natFromBe lastValid) (natFromBe windowSize))
    | _ => none
  else if method = strBytes ("getaccount") then
    match args with
    | [.str blockNumber, .str address] =>
        some (.getaccount (natFromBe blockNumber) address)
    | _ => none
  else if method = strBytes ("getaccountroots") then
    match args with
    | [.str blockNumber, .str address] =>
        some (.getaccountroots (natFromBe blockNumber) address)
    | _ => none
  else if method = strBytes ("getaccountvalue") then
    match args with
    | [.str blockNumber, .str address, .str key] =>
        some (.getaccountvalue (natFromBe blockNumber) address key)
    | _ => none
  else if method = strBytes ("ticket") then
    match args with
    | [.str blockNumber, .str fleetAddr, .str totalConnections,
       .str totalBytes, .str localAddr, .str deviceSig] =>
        some (.ticket (natFromBe blockNumber) fleetAddr
          (natFromBe totalConnections) (natFromBe totalBytes) localAddr deviceSig)
    | _ => none
  else if method = strBytes ("portopen") then
    match args with
    | [.str deviceID, .str port, .str mode] =>
        some (.portopen deviceID (natFromBe port) mode)
    | _ => none
  else if method = strBytes ("getobject") then
    match args with
    | [.str deviceID] => some (.getobject deviceID)
    | _ => none
  else if method = strBytes ("getnode") then
    match args with
    | [.str serverID] => some (.getnode serverID)
    | _ => none
  else if method = strBytes ("getstateroots") then
    match args with
    | [.str blockNumber] => some (.getstateroots (natFromBe blockNumber))
    | _ => none
  else none

/-- `rlp.Decode` of wire bytes into the request record of the method
they carry. -/
def decodeRequest (buffer : Bytes) : Option (Nat × Request) :=
  match rlpDecode buffer with
  | some (.list [.str requestID, .list (.str method :: args)]) =>
    match payloadToRequest method args with
    | some req => some (natFromBe requestID, req)
    | none => none
  | _ => none

/-- Field bounds that hold of every Go value: `uint64` fields are below
`2^64` and slice lengths are below `2^64`. -/
def natOk (n : Nat) : Bool := decide (n < 18446744073709551616)

/-- Slice length bound of a Go byte field. -/
def bytesOk (bs : Bytes) : Bool := decide (bs.length < 18446744073709551616)

/-- Go-representability of a request record's fields. -/
def Request.wf : Request → Bool
  | .hello flag => natOk flag
  | .portsend ref data => natOk ref && bytesOk data
  | .portclose ref => natOk ref
  | .getblock blockNumber => natOk blockNumber
  | .getblockpeak => true
  | .getblockheader2 blockNumber => natOk blockNumber
  | .getblockquick2 lastValid windowSize => natOk lastValid && natOk windowSize
  | .getaccount blockNumber address => natOk blockNumber && bytesOk address
  | .getaccountroots blockNumber address => natOk blockNumber && bytesOk address
  | .getaccountvalue blockNumber address key =>
      natOk blockNumber && bytesOk address && bytesOk key
  | .ticket blockNumber fleetAddr totalConnections totalBytes localAddr deviceSig =>
      natOk blockNumber && bytesOk fleetAddr && natOk totalConnections &&
        natOk totalBytes && bytesOk localAddr && bytesOk deviceSig
  | .portopen deviceID port mode => bytesOk deviceID && natOk port && bytesOk mode
  | .getobject deviceID => bytesOk deviceID
  | .getnode serverID => bytesOk serverID
  | .getstateroots blockNumber => natOk blockNumber

/-- A dynamically-typed `NewMessage` argument (`interface{}` in the
source); the Go type assertions distinguish `uint64`, `[]byte` and
`string`. -/
inductive Arg
  | num (n : Nat)
  | bytes (bs : Bytes)
  | str (s : Bytes)
  deriving DecidableEq, Repr

/-- Result of `RLP_V2.NewMessage`: encoded bytes plus the response
decoder bound at request time, `ErrRPCNotSupport`, or a Go runtime
fault (out-of-range `args[i]` access or failed type assertion). -/
inductive NewMessageResult
  | ok (encoded : Bytes) (decoder : Option Decoder)
  | err (e : EdgeErr)
  | assertFail
  deriving DecidableEq, Repr

/-- `RLP_V2.NewMessage`, one branch per `case` of the source `switch`:
build the request record from the type-asserted arguments, RLP encode
it, and pair it with the method's response decoder (`nil` for `hello`,
`portsend` and `portclose`). Unknown methods hit the `default` arm,
`ErrRPCNotSupport`. -/
def NewMessage (requestID : Nat) (method : Bytes) (args : List Arg) : NewMessageResult :=
  if method = strBytes ("hello") then
    match args with
    | .num flag :: _ => .ok (encodeRequest requestID (.hello flag)) none
    | _ => .assertFail
  else if method = strBytes ("portsend") then
    match args with
    | .num ref :: .bytes data :: _ =>
        .ok (encodeRequest requestID (.portsend ref data)) none
    | _ => .assertFail
  else if method = strBytes ("portclose") then
    match args with
    | .num ref :: _ => .ok (encodeRequest requestID (.portclose ref)) none
    | _ => .assertFail
  else if method = strBytes ("getblock") then
    match args with
    | .num blockNumber :: _ =>
        .ok (encodeRequest requestID (.getblock blockNumber)) (some .block)
    | _ => .assertFail
  else if method = strBytes ("getblockpeak") then
    .ok (encodeRequest requestID .getblockpeak) (some .blockPeak)
  else if method = strBytes ("getblockheader2") then
    match args with
    | .num blockNumber :: _ =>
        .ok (encodeRequest requestID (.getblockheader2 blockNumber)) (some .blockHeader)
    | _ => .assertFail
  else if method = strBytes ("getblockquick2") then
    match args with
    | .num lastValid :: .num windowSize :: _ =>
        .ok (encodeRequest requestID (.getblockquick2 lastValid windowSize))
          (some .blockquick)
    | _ => .assertFail
  else if method = strBytes ("getaccount") then
    match args with
    | .num blockNumber :: .bytes address :: _ =>
        .ok (encodeRequest requestID (.getaccount blockNumber address)) (some .account)
    | _ => .assertFail
  else if method = strBytes ("getaccountroots") then
    match args with
    | .num blockNumber :: .bytes address :: _ =>
        .ok (encodeRequest requestID (.getaccountroots blockNumber address))
          (some .accountRoots)
    | _ => .assertFail
  else if method = strBytes ("getaccountvalue") then
    match args with
    | .num blockNumber :: .bytes address :: .bytes key :: _ =>
        .ok (encodeRequest requestID (.getaccountvalue blockNumber address key))
          (some .accountValue)
    | _ => .assertFail
  else if method = strBytes ("ticket") then
    match args with
    | .num blockNumber :: .bytes fleetAddr :: .num totalConnections ::
        .num totalBytes :: .bytes localAddr :: .bytes deviceSig :: _ =>
        .ok (encodeRequest requestID (.ticket blockNumber fleetAddr totalConnections
          totalBytes localAddr deviceSig)) (some .deviceTicket)
    | _ => .assertFail
  else if method = strBytes ("portopen") then
    match args with
    | .bytes deviceID :: .num port :: .str mode :: _ =>
        .ok (encodeRequest requestID (.portopen deviceID port mode)) (some .portOpen)
    | _ => .assertFail
  else if method = strBytes ("getobject") then
    match args with
    | .bytes deviceID :: _ =>
        .ok (encodeRequest requestID (.getobject deviceID)) (some .deviceObject)
    | _ => .assertFail
  else if method = strBytes ("getnode") then
    match args with
    | .bytes serverID :: _ =>
        .ok (encodeRequest requestID (.getnode serverID)) (some .serverObj)
    | _ => .assertFail
  else if method = strBytes ("getstateroots") then
    match args with
    | .num blockNumber :: _ =>
        .ok (encodeRequest requestID (.getstateroots blockNumber)) (some .stateRoots)
    | _ => .assertFail
  else .err .rpcNotSupport

/-- The method names handled by the `switch` of `NewMessage`. -/
def newMessageMethods : List Bytes :=
  [strBytes ("hello"), strBytes ("portsend"), strBytes ("portclose"),
   strBytes ("getblock"), strBytes ("getblockpeak"),
   strBytes ("getblockheader2"), strBytes ("getblockquick2"),
   strBytes ("getaccount"), strBytes ("getaccountroots"),
   strBytes ("getaccountvalue"), strBytes ("ticket"), strBytes ("portopen"),
   strBytes ("getobject"), strBytes ("getnode"), strBytes ("getstateroots")]

/-! ## Tickets

`DeviceTicket` and the ticket reply structs (`ticketThanksResponse`,
`ticketTooLowResponse`, `ticketTooOldResponse`) are declared in files of
the `edge` package that are not under `src/`; they are modelled from the
spec (§3 "DeviceTicket", §4.4) and from their use in
`parseDeviceTicketResponse`. -/

/-- The ticket business errors stored in `DeviceTicket.Err`
(`ErrTicketTooLow`, `ErrTicketTooOld`). -/
inductive TicketErr
  | tooLow
  | tooOld
  deriving DecidableEq, Repr

/-- `edge.DeviceTicket` (spec §3): the zero value (`DeviceTicket{}`) has
zero counters, the all-zero 20-byte addresses, nil byte slices and no
error. -/
structure DeviceTicket where
  serverID : Bytes := List.replicate 20 0
  fleetAddr : Bytes := List.replicate 20 0
  totalConnections : Nat := 0
  totalBytes : Nat := 0
  localAddr : Bytes := []
  deviceSig : Bytes := []
  serverSig : Bytes := []
  blockHash : Bytes := []
  blockNumber : Int := 0
  err : Option TicketErr := none
  deriving DecidableEq, Repr

/-- Modelled from the spec: the decoded fields of a `too_low`/`too_old`
ticket reply — the raw fields the server supplied (§4.4). -/
structure TicketReplyFields where
  requestID : Nat
  responseTag : Bytes
  outcomeTag : Bytes
  blockHash : Bytes
  totalConnections : Nat
  totalBytes : Nat
  localAddr : Bytes
  deviceSig : Bytes
  deriving DecidableEq, Repr

/-- Modelled from the spec: `rlp.Decode` into `ticketThanksResponse` — a
ticket acknowledgement reply is the envelope
`[request_id, [response_tag, outcome_tag]]`. -/
def decodeTicketThanks (buffer : Bytes) : Option (Nat × Bytes × Bytes) :=
  match rlpDecode buffer with
  | some (.list [.str requestID, .list [.str responseTag, .str outcomeTag]]) =>
      some (natFromBe requestID, responseTag, outcomeTag)
  | _ => none

/-- Modelled from the spec: `rlp.Decode` into `ticketTooLowResponse` /
`ticketTooOldResponse` — the envelope `[request_id, [response_tag,
outcome_tag, block_hash, total_connections, total_bytes, local_addr,
device_sig]]` carrying the server-reported fields. -/
def decodeTicketFields (buffer : Bytes) : Option TicketReplyFields :=
  match rlpDecode buffer with
  | some (.list [.str requestID, .list [.str responseTag, .str outcomeTag,
      .str blockHash, .str totalConnections, .str totalBytes,
      .str localAddr, .str deviceSig]]) =>
      some { requestID := natFromBe requestID, responseTag := responseTag,
             outcomeTag := outcomeTag, blockHash := blockHash,
             totalConnections := natFromBe totalConnections,
             totalBytes := natFromBe totalBytes, localAddr := localAddr,
             deviceSig := deviceSig }
  | _ => none

/-- `RLP_V2.parseDeviceTicketResponse`: branch on the outcome pivots in
source order (`thanks!`, then `too_low`, then `too_old`), decoding the
reply in each branch and building the `DeviceTicket` exactly as the
source does: `thanks!` yields the empty ticket `DeviceTicket{}`;
`too_low` copies the five payload fields and sets `ErrTicketTooLow`;
`too_old` sets only `ErrTicketTooOld`. The fall-through returns
`ErrFailedToParseTicket`. -/
def parseDeviceTicketResponse (buffer : Bytes) : Except EdgeErr DeviceTicket :=
  if bytesContains buffer ticketThanksPivot then
    match decodeTicketThanks buffer with
    | some _ => .ok {}
    | none => .error .decodeFail
  else if bytesContains buffer ticketTooLowPivot then
    match decodeTicketFields buffer with
    | some p =>
        .ok { blockHash := p.blockHash, totalConnections := p.totalConnections,
              totalBytes := p.totalBytes, localAddr := p.localAddr,
              deviceSig := p.deviceSig, err := some .tooLow }
    | none => .error .decodeFail
  else if bytesContains buffer ticketTooOldPivot then
    match decodeTicketFields buffer with
    | some _ => .ok { err := some .tooOld }
    | none => .error .decodeFail
  else .error .failedToParseTicket

/-! ## Block headers -/

/-- The header fields assembled by `parseBlockHeaderResponse` and handed
to the external `blockquick.NewHeader` (spec §6, light-client header
validator). -/
structure BlockHeader where
  txHash : Bytes
  stateHash : Bytes
  prevBlock : Bytes
  minerSig : Bytes
  minerPubkey : Bytes
  timestamp : Nat
  number : Nat
  nonce : Nat
  deriving DecidableEq, Repr

/-- Key/value items of a decoded block-header payload. -/
def kvPairs : List Item → Option (List (Bytes × Bytes))
  | [] => some []
  | .list [.str k, .str v] :: rest =>
    match kvPairs rest with
    | some ps => some ((k, v) :: ps)
    | none => none
  | _ => none

/-- Modelled from the spec: `rlp.Decode` into `blockHeaderResponse` — the
envelope `[request_id, [response_tag, method, [[key, value], ...],
miner_pubkey]]`, whose key/value items carry the header fields. -/
def decodeBlockHeaderResponse (buffer : Bytes) :
    Option (List (Bytes × Bytes) × Bytes) :=
  match rlpDecode buffer with
  | some (.list [.str _, .list [.str _, .str _, .list kvs, .str minerPubkey]]) =>
    match kvPairs kvs with
    | some pairs => some (pairs, minerPubkey)
    | none => none
  | _ => none

/-- `findItemInItems` as used at the call sites (error ignored with
`_`): the value stored under `key`, or the zero `Item`'s nil value when
the key is absent. -/
def findItemValue (items : List (Bytes × Bytes)) (key : Bytes) : Bytes :=
  match items.find? (fun kv => kv.1 == key) with
  | some kv => kv.2
  | none => []

/-- The header record built from the looked-up fields, with the numeric
fields decoded by `util.DecodeBytesToUint` (big-endian) and the miner
public key decompressed by the external `secp256k1` primitive. -/
def assembleHeader (decompress : Bytes → Bytes)
    (items : List (Bytes × Bytes)) (minerPubkey : Bytes) : BlockHeader :=
  { txHash := findItemValue items (strBytes ("transaction_hash")),
    stateHash := findItemValue items (strBytes ("state_hash")),
    prevBlock := findItemValue items (strBytes ("previous_block")),
    minerSig := findItemValue items (strBytes ("miner_signature")),
    minerPubkey := decompress minerPubkey,
    timestamp := natFromBe (findItemValue items (strBytes ("timestamp"))),
    number := natFromBe (findItemValue items (strBytes ("number"))),
    nonce := natFromBe (findItemValue items (strBytes ("nonce"))) }

/-- `RLP_V2.parseBlockHeaderResponse`, parameterized by the external
collaborators `decompress` (`secp256k1.DecompressPubkeyBytes`) and
`headerHash` (`blockquick.NewHeader` followed by `Hash()`; modelled as
total — a `NewHeader` failure would also return no header): decode the
response, assemble the header from the looked-up fields, and compare
the recomputed hash with the supplied `block_hash`; on mismatch fail
with the `Blockhash != real hash` error and return no header. -/
def parseBlockHeaderResponse (decompress : Bytes → Bytes)
    (headerHash : BlockHeader → Bytes) (buffer : Bytes) :
    Except EdgeErr BlockHeader :=
  match decodeBlockHeaderResponse buffer with
  | none => .error .decodeFail
  | some (items, minerPubkey) =>
    let header := assembleHeader decompress items minerPubkey
    if headerHash header = findItemValue items (strBytes ("block_hash")) then
      .ok header
    else .error .blockHashMismatch

/-! ## `parseError` and `ResponseID` -/

/-- `edge.Error`, the record `parseError` hands to the caller. -/
structure GoError where
  message : Bytes
  deriving DecidableEq, Repr

/-- Modelled from the spec: `rlp.Decode` into `errorResponse` — an error
envelope `[request_id, [error_tag, ...payload strings]]`; the payload
collects the byte strings after the tag (`Payload[0]` the method,
`Payload[len-1]` the message, per the source comments). -/
def decodeErrorPayload (buffer : Bytes) : Option (List Bytes) :=
  match rlpDecode buffer with
  | some (.list [.str _, .list (.str _ :: rest)]) =>
    let extract : List Item → Option (List Bytes) := fun items =>
      items.foldr (fun it acc =>
        match it, acc with
        | .str s, some ss => some (s :: ss)
        | _, _ => none) (some [])
    extract rest
  | _ => none

/-- `RLP_V2.parseError`: the decode error is discarded (`_ = Decode`),
so an undecodable buffer leaves the zero `errorResponse` with an empty
payload; the unconditional `Payload[len(Payload)-1]` access then indexes
out of bounds — a Go runtime panic, modelled as `none`. On success the
function returns the record and always a nil error. -/
def parseError (buffer : Bytes) : Option (GoError × Option EdgeErr) :=
  let payload := (decodeErrorPayload buffer).getD []
  match payload.getLast? with
  | some message => some ({ message := message }, none)
  | none => none

/-- Modelled from the spec: `rlp.Decode` into `responseID` — the
envelope's leading `request_id` element. -/
def decodeResponseID (buffer : Bytes) : Option Nat :=
  match rlpDecode buffer with
  | some (.list (.str requestID :: _)) => some (natFromBe requestID)
  | _ => none

/-- `RLP_V2.ResponseID`: the decode error is discarded, so an
undecodable buffer leaves the zero `responseID` struct and the function
returns request id 0. -/
def ResponseID (buffer : Bytes) : Nat :=
  match decodeResponseID buffer with
  | some requestID => requestID
  | none => 0



/-! ## Dispatch tables and concrete wire buffers used by the claims -/

/-- The method tokens whose solo responses `parseResponse` routes to the
right decoder: the token is itself the pivot of its branch, and every
pivot checked earlier in the chain is another method token (so it is
absent from a buffer containing no other token). -/
def soloDispatchTable : List (Bytes × Decoder) :=
  [(strBytes ("portopen"), .portOpen), (strBytes ("getblock"), .block),
   (strBytes ("getaccount"), .account), (strBytes ("getstateroots"), .stateRoots),
   (strBytes ("getobject"), .deviceObject), (strBytes ("getnode"), .serverObj)]

/-- The pivots checked by `parseResponse`, in branch order. -/
def responsePivots : List Bytes :=
  [portOpenPivot, blockPivot, block2Pivot, blockHeaderPivot, blockHeader2Pivot,
   blockquickPivot, blockquick2Pivot, blockPeakPivot, accountPivot,
   accountValuePivot, accountRootsPivot, stateRootsPivot, objectPivot,
   nodePivot, ticketPivot]

/-- The pivots checked by `parseInboundRequest`, in branch order. -/
def inboundPivots : List Bytes :=
  [portOpenPivot, portSendPivot, portClosePivot, goodbyePivot]

/-- RLP bytes of the ticket reply `[0, ["response", "thanks!"]]`. -/
def thanksReplyBuf : Bytes :=
  [211, 128, 209, 136, 114, 101, 115, 112, 111, 110, 115, 101,
   135, 116, 104, 97, 110, 107, 115, 33]

/-- RLP bytes of the ticket reply
`[0, ["response", "too_low", [7], [1], [2], [3], [4]]]`. -/
def tooLowReplyBuf : Bytes :=
  [216, 128, 214, 136, 114, 101, 115, 112, 111, 110, 115, 101,
   135, 116, 111, 111, 95, 108, 111, 119, 7, 1, 2, 3, 4]

/-- RLP bytes of the ticket reply
`[0, ["response", "too_old", [7], [1], [2], [3], [4]]]`: block hash `[7]`,
total connections 1, total bytes 2, local address `[3]`, device
signature `[4]`. -/
def tooOldReplyBuf : Bytes :=
  [216, 128, 214, 136, 114, 101, 115, 112, 111, 110, 115, 101,
   135, 116, 111, 111, 95, 111, 108, 100, 7, 1, 2, 3, 4]

/-- RLP bytes of a block-header response
`[0, [[114], [109], [["block_hash", [1]]], [5]]]`: one key/value item
claiming block hash `[1]`, miner pubkey `[5]`. -/
def headerReplyBuf : Bytes :=
  [211, 128, 209, 114, 109, 205, 204, 138, 98, 108, 111, 99, 107, 95,
   104, 97, 115, 104, 1, 5]

/-- RLP bytes of the error envelope `[0, ["error", [7]]]`. -/
def errorReplyBuf : Bytes :=
  [201, 128, 199, 133, 101, 114, 114, 111, 114, 7]

/-! ## Properties of the embedding -/

theorem bytesContains_iff (buffer piv : Bytes) :
    bytesContains buffer piv = true ↔ piv <:+: buffer := by
  induction buffer with
  | nil =>
    rw [bytesContains]
    cases piv with
    | nil => simp
    | cons a t => simp [List.isPrefixOf]
  | cons a t ih =>
    rw [bytesContains, List.infix_cons_iff]
    simp [ List.isPrefixOf_iff_prefix, ih]

/-! ### Round trip of the RLP codec -/

theorem natFromBe_beBytes : ∀ n : Nat, natFromBe (beBytes n) = n
  | 0 => by rw [beBytes]; rfl
  | n + 1 => by
    have ih := natFromBe_beBytes ((n + 1) / 256)
    rw [beBytes]
    simp only [natFromBe, List.foldl_append, List.foldl_cons, List.foldl_nil] at ih ⊢
    rw [ih]
    omega
decreasing_by exact Nat.div_lt_self (Nat.succ_pos n) (by omega)

theorem beBytes_length_le : ∀ (k n : Nat), n < 256 ^ k → (beBytes n).length ≤ k := by
  intro k
  induction k with
  | zero =>
    intro n hn
    have h0 : n = 0 := by simpa using hn
    subst h0
    simp [beBytes]
  | succ k ih =>
    intro n hn
    match n with
    | 0 => simp [beBytes]
    | m + 1 =>
      rw [beBytes]
      simp only [List.length_append, List.length_cons, List.length_nil]
      have hdiv : (m + 1) / 256 < 256 ^ k := by
        apply Nat.div_lt_of_lt_mul
        rw [pow_succ] at hn
        omega
      have := ih _ hdiv
      omega

theorem beBytes_length_pos (n : Nat) (h : 0 < n) : 0 < (beBytes n).length := by
  match n with
  | m + 1 =>
    rw [beBytes]
    simp

theorem encodeLength_length_pos (offset len : Nat) : 0 < (encodeLength offset len).length := by
  rw [encodeLength]
  split <;> simp

theorem encodeBytes_ne_nil (bs : Bytes) : encodeBytes bs ≠ [] := by
  match bs with
  | [] => rw [encodeBytes, encodeLength]; simp
  | [b] => rw [encodeBytes]; split <;> simp
  | a :: b :: t => rw [encodeBytes, encodeLength]; split <;> simp

theorem encodeItem_ne_nil (x : Item) : encodeItem x ≠ [] := by
  cases x with
  | str bs =>
    rw [encodeItem]
    exact encodeBytes_ne_nil bs
  | list items =>
    rw [encodeItem, encodeLength]
    split <;> simp

theorem itemSize_pos (x : Item) : 0 < itemSize x := by
  cases x <;> simp [itemSize]

mutual
theorem itemSize_le : ∀ x : Item, itemSize x ≤ (encodeItem x).length
  | .str bs => by
    rw [itemSize]
    have := List.length_pos.mpr (encodeItem_ne_nil (.str bs))
    omega
  | .list items => by
    have h := listSize_le items
    rw [itemSize, encodeItem, List.length_append]
    have := encodeLength_length_pos 192 (encodeList items).length
    omega

theorem listSize_le : ∀ xs : List Item, listSize xs ≤ (encodeList xs).length
  | [] => by simp [listSize, encodeList]
  | i :: is => by
    have h1 := itemSize_le i
    have h2 := listSize_le is
    have h3 := List.length_pos.mpr (encodeItem_ne_nil i)
    rw [listSize, encodeList, List.length_append, Nat.max_le]
    constructor <;> omega
end

theorem decodeItems_cons_of (fuel : Nat) (input : Bytes) (hne : input ≠ [])
    (x : Item) (rest : Bytes) (xs : List Item)
    (h1 : decodeOne (fuel + 1) input = some (x, rest))
    (h2 : decodeItems fuel rest = some xs) :
    decodeItems (fuel + 1) input = some (x :: xs) := by
  match input with
  | [] => exact absurd rfl hne
  | b :: t =>
    rw [decodeOne] at h1
    rw [decodeItems, h1]
    simp only [h2]

/-- Joint induction behind the round trip: with enough fuel, decoding an
encoding (followed by any trailing bytes) returns the original value and
the trailing bytes. -/
theorem decode_encode_aux (fuel : Nat) :
    (∀ x rest, itemOk x = true → itemSize x ≤ fuel →
      decodeOne fuel (encodeItem x ++ rest) = some (x, rest)) ∧
    (∀ xs, listOk xs = true → listSize xs ≤ fuel →
      decodeItems fuel (encodeList xs) = some xs) := by
  induction fuel with
  | zero =>
    constructor
    · intro x rest _ hsz
      have := itemSize_pos x
      omega
    · intro xs hok hsz
      cases xs with
      | nil => rw [encodeList, decodeItems]
      | cons x xs =>
        rw [listSize, Nat.max_le] at hsz
        omega
  | succ fuel ih =>
    obtain ⟨ihA, ihB⟩ := ih
    have key : ∀ bs' : Bytes, bs'.length < 18446744073709551616 → ∀ rest,
        decodeOne (fuel + 1) ((encodeLength 128 bs'.length ++ bs') ++ rest) =
          some (.str bs', rest) := by
      intro bs' hlen rest
      by_cases hL : bs'.length ≤ 55
      · have h1 : ¬ (128 + bs'.length < 128) := by omega
        have h2 : 128 + bs'.length ≤ 183 := by omega
        have h3 : ¬ ((bs' ++ rest).length < 128 + bs'.length - 128) := by
          rw [List.length_append]
          omega
        rw [encodeLength, if_pos hL]
        simp only [List.cons_append, List.nil_append, List.append_assoc]
        rw [decodeOne, decodeOneWith]
        simp only [h1, if_false, h2, if_true, h3, Nat.add_sub_cancel_left,
          List.take_left, List.drop_left]
        rw [if_neg (by rw [List.length_append]; omega)]
      · have hpos : 0 < (beBytes bs'.length).length :=
          beBytes_length_pos _ (by omega)
        have hle : (beBytes bs'.length).length ≤ 8 := by
          apply beBytes_length_le
          norm_num
          exact hlen
        have h1 : ¬ (128 + 55 + (beBytes bs'.length).length < 128) := by omega
        have h2 : ¬ (128 + 55 + (beBytes bs'.length).length ≤ 183) := by omega
        have h3 : 128 + 55 + (beBytes bs'.length).length < 192 := by omega
        rw [encodeLength, if_neg hL]
        simp only [List.cons_append, List.nil_append, List.append_assoc]
        rw [decodeOne, decodeOneWith]
        simp only [h1, if_false, h2, h3, if_true]
        have h4 : ¬ ((beBytes bs'.length ++ (bs' ++ rest)).length <
            128 + 55 + (beBytes bs'.length).length - 183) := by
          simp only [List.length_append]
          omega
        simp only [h4, if_false]
        have e5 : 128 + 55 + (beBytes bs'.length).length - 183 =
            (beBytes bs'.length).length := by omega
        rw [e5, List.take_left, List.drop_left, natFromBe_beBytes]
        have h6 : ¬ ((bs' ++ rest).length < bs'.length) := by
          rw [List.length_append]
          omega
        simp only [h6, if_false, List.take_left, List.drop_left]
    have A : ∀ x rest, itemOk x = true → itemSize x ≤ fuel + 1 →
        decodeOne (fuel + 1) (encodeItem x ++ rest) = some (x, rest) := by
      intro x rest hok hsz
      cases x with
      | str bs =>
        rw [itemOk, decide_eq_true_eq] at hok
        rw [encodeItem]
        match bs with
        | [] =>
          have e : encodeBytes ([] : Bytes) =
              encodeLength 128 (List.length ([] : Bytes)) ++ [] := by
            rw [encodeBytes]
            simp
          rw [e]
          exact key [] (by simp) rest
        | [b] =>
          by_cases hb : b < 128
          · rw [encodeBytes, if_pos hb, List.cons_append, List.nil_append,
              decodeOne, decodeOneWith, if_pos hb]
          · have e : encodeBytes [b] = encodeLength 128 [b].length ++ [b] := by
              rw [encodeBytes, if_neg hb]
              rfl
            rw [e]
            exact key [b] hok rest
        | a :: b :: t =>
          have e : encodeBytes (a :: b :: t) =
              encodeLength 128 (a :: b :: t).length ++ (a :: b :: t) := by
            rw [encodeBytes]
          rw [e]
          exact key (a :: b :: t) hok rest
      | list items =>
        rw [itemOk] at hok
        rw [itemSize] at hsz
        have hsz' : listSize items ≤ fuel := by omega
        have hrec := ihB items hok hsz'
        rw [encodeItem]
        by_cases hL : (encodeList items).length ≤ 55
        · have h1 : ¬ (192 + (encodeList items).length < 128) := by omega
          have h2 : ¬ (192 + (encodeList items).length ≤ 183) := by omega
          have h3 : ¬ (192 + (encodeList items).length < 192) := by omega
          have h4 : 192 + (encodeList items).length ≤ 247 := by omega
          have h5 : ¬ ((encodeList items ++ rest).length <
              192 + (encodeList items).length - 192) := by
            rw [List.length_append]
            omega
          rw [encodeLength, if_pos hL]
          simp only [List.cons_append, List.nil_append, List.append_assoc]
          rw [decodeOne, decodeOneWith]
          simp only [h1, if_false, h2, h3, h4, if_true, h5,
            Nat.add_sub_cancel_left, List.take_left, List.drop_left, hrec]
          rw [if_neg (by rw [List.length_append]; omega)]
        · have hpos : 0 < (beBytes (encodeList items).length).length :=
            beBytes_length_pos _ (by omega)
          have h1 : ¬ (192 + 55 + (beBytes (encodeList items).length).length < 128) := by
            omega
          have h2 : ¬ (192 + 55 + (beBytes (encodeList items).length).length ≤ 183) := by
            omega
          have h3 : ¬ (192 + 55 + (beBytes (encodeList items).length).length < 192) := by
            omega
          have h4 : ¬ (192 + 55 + (beBytes (encodeList items).length).length ≤ 247) := by
            omega
          rw [encodeLength, if_neg hL]
          simp only [List.cons_append, List.nil_append, List.append_assoc]
          rw [decodeOne, decodeOneWith]
          simp only [h1, if_false, h2, h3, h4]
          have h5 : ¬ ((beBytes (encodeList items).length ++ (encodeList items ++ rest)).length <
              192 + 55 + (beBytes (encodeList items).length).length - 247) := by
            simp only [List.length_append]
            omega
          simp only [h5, if_false]
          have e6 : 192 + 55 + (beBytes (encodeList items).length).length - 247 =
              (beBytes (encodeList items).length).length := by omega
          rw [e6, List.take_left, List.drop_left, natFromBe_beBytes]
          have h7 : ¬ ((encodeList items ++ rest).length < (encodeList items).length) := by
            rw [List.length_append]
            omega
          simp only [h7, if_false, List.take_left, List.drop_left, hrec]
    refine ⟨A, ?_⟩
    intro xs hok hsz
    cases xs with
    | nil => rfl
    | cons x xs =>
      rw [listOk, Bool.and_eq_true] at hok
      rw [listSize, Nat.max_le] at hsz
      rw [encodeList]
      refine decodeItems_cons_of fuel _ ?_ x (encodeList xs) xs
        (A x _ hok.1 hsz.1) (ihB xs hok.2 (by omega))
      intro hcontra
      exact encodeItem_ne_nil x (List.append_eq_nil.mp hcontra).1

/-- RLP round trip at the nested-value level. -/
theorem rlpDecode_encodeItem (x : Item) (h : itemOk x = true) :
    rlpDecode (encodeItem x) = some x := by
  have hs : itemSize x ≤ (encodeItem x).length := itemSize_le x
  have hmain := (decode_encode_aux ((encodeItem x).length)).1 x [] h hs
  rw [List.append_nil] at hmain
  rw [rlpDecode, hmain]

/-! ### Round trip at the record level -/

theorem itemOk_str {bs : Bytes} (h : bs.length < 18446744073709551616) :
    itemOk (.str bs) = true := by
  rw [itemOk]
  exact decide_eq_true h

theorem itemOk_bytesOk {bs : Bytes} (h : bytesOk bs = true) :
    itemOk (.str bs) = true := by
  rw [bytesOk, decide_eq_true_eq] at h
  exact itemOk_str h

theorem itemOk_natItem (n : Nat) (h : natOk n = true) : itemOk (natItem n) = true := by
  rw [natOk, decide_eq_true_eq] at h
  apply itemOk_str
  have e : (256 : Nat) ^ 8 = 18446744073709551616 := by norm_num
  have := beBytes_length_le 8 n (by omega)
  omega

theorem listOk_nil : listOk [] = true := by rw [listOk]

theorem listOk_cons {x : Item} {xs : List Item} (h1 : itemOk x = true)
    (h2 : listOk xs = true) : listOk (x :: xs) = true := by
  rw [listOk, h1, h2]
  rfl

theorem itemOk_list {items : List Item} (h : listOk items = true) :
    itemOk (.list items) = true := by
  rw [itemOk]
  exact h

theorem itemOk_methodName (req : Request) : itemOk (.str req.methodName) = true := by
  cases req <;> (rw [Request.methodName]; exact itemOk_str (by decide))

theorem listOk_payloadArgs (req : Request) (h : req.wf = true) :
    listOk req.payloadArgs = true := by
  cases req with
  | hello flag =>
    rw [Request.wf] at h
    rw [Request.payloadArgs]
    exact listOk_cons (itemOk_natItem _ h) listOk_nil
  | portsend ref data =>
    rw [Request.wf, Bool.and_eq_true] at h
    rw [Request.payloadArgs]
    exact listOk_cons (itemOk_natItem _ h.1)
      (listOk_cons (itemOk_bytesOk h.2) listOk_nil)
  | portclose ref =>
    rw [Request.wf] at h
    rw [Request.payloadArgs]
    exact listOk_cons (itemOk_natItem _ h) listOk_nil
  | getblock blockNumber =>
    rw [Request.wf] at h
    rw [Request.payloadArgs]
    exact listOk_cons (itemOk_natItem _ h) listOk_nil
  | getblockpeak =>
    rw [Request.payloadArgs]
    exact listOk_nil
  | getblockheader2 blockNumber =>
    rw [Request.wf] at h
    rw [Request.payloadArgs]
    exact listOk_cons (itemOk_natItem _ h) listOk_nil
  | getblockquick2 lastValid windowSize =>
    rw [Request.wf, Bool.and_eq_true] at h
    rw [Request.payloadArgs]
    exact listOk_cons (itemOk_natItem _ h.1)
      (listOk_cons (itemOk_natItem _ h.2) listOk_nil)
  | getaccount blockNumber address =>
    rw [Request.wf, Bool.and_eq_true] at h
    rw [Request.payloadArgs]
    exact listOk_cons (itemOk_natItem _ h.1)
      (listOk_cons (itemOk_bytesOk h.2) listOk_nil)
  | getaccountroots blockNumber address =>
    rw [Request.wf, Bool.and_eq_true] at h
    rw [Request.payloadArgs]
    exact listOk_cons (itemOk_natItem _ h.1)
      (listOk_cons (itemOk_bytesOk h.2) listOk_nil)
  | getaccountvalue blockNumber address key =>
    rw [Request.wf, Bool.and_eq_true, Bool.and_eq_true] at h
    rw [Request.payloadArgs]
    exact listOk_cons (itemOk_natItem _ h.1.1)
      (listOk_cons (itemOk_bytesOk h.1.2)
        (listOk_cons (itemOk_bytesOk h.2) listOk_nil))
  | ticket blockNumber fleetAddr totalConnections totalBytes localAddr deviceSig =>
    simp only [Request.wf, Bool.and_eq_true] at h
    obtain ⟨⟨⟨⟨⟨ha, hb⟩, hc⟩, hd⟩, he⟩, hf⟩ := h
    rw [Request.payloadArgs]
    exact listOk_cons (itemOk_natItem _ ha)
      (listOk_cons (itemOk_bytesOk hb)
        (listOk_cons (itemOk_natItem _ hc)
          (listOk_cons (itemOk_natItem _ hd)
            (listOk_cons (itemOk_bytesOk he)
              (listOk_cons (itemOk_bytesOk hf) listOk_nil)))))
  | portopen deviceID port mode =>
    rw [Request.wf, Bool.and_eq_true, Bool.and_eq_true] at h
    rw [Request.payloadArgs]
    exact listOk_cons (itemOk_bytesOk h.1.1)
      (listOk_cons (itemOk_natItem _ h.1.2)
        (listOk_cons (itemOk_bytesOk h.2) listOk_nil))
  | getobject deviceID =>
    rw [Request.wf] at h
    rw [Request.payloadArgs]
    exact listOk_cons (itemOk_bytesOk h) listOk_nil
  | getnode serverID =>
    rw [Request.wf] at h
    rw [Request.payloadArgs]
    exact listOk_cons (itemOk_bytesOk h) listOk_nil
  | getstateroots blockNumber =>
    rw [Request.wf] at h
    rw [Request.payloadArgs]
    exact listOk_cons (itemOk_natItem _ h) listOk_nil

theorem itemOk_requestToItem (requestID : Nat) (req : Request)
    (h1 : natOk requestID = true) (h2 : req.wf = true) :
    itemOk (requestToItem requestID req) = true := by
  rw [requestToItem]
  apply itemOk_list
  refine listOk_cons (itemOk_natItem _ h1) (listOk_cons ?_ listOk_nil)
  exact itemOk_list (listOk_cons (itemOk_methodName req) (listOk_payloadArgs req h2))

theorem payloadToRequest_payloadArgs (req : Request) :
    payloadToRequest req.methodName req.payloadArgs = some req := by
  cases req <;>
    simp +decide [payloadToRequest, Request.methodName, Request.payloadArgs,
      natItem, natFromBe_beBytes]

/-! ## The claims -/

/-- C1 (counterexample): the buffer holding exactly the method token
`ticket` — which contains no other method token — is not classified to
the ticket decoder: `parseResponse` rejects it with
`ErrResponseHandlerNotFound`, because the ticket branch scans for the
pivot `getticket` while the wire method token is `ticket`. -/
theorem parseResponse_ticket_unrouted :
    bytesContains (strBytes ("ticket")) (strBytes ("ticket")) = true ∧
    (methodTokens.all fun u =>
      decide (u = strBytes ("ticket")) ||
        !bytesContains (strBytes ("ticket")) u) = true ∧
    parseResponse (strBytes ("ticket")) = .error .responseHandlerNotFound :=
  ⟨by decide, by decide, by rfl⟩

/-- C1 (amended): for the tokens of `soloDispatchTable` — `portopen`,
`getblock`, `getaccount`, `getstateroots`, `getobject`, `getnode` —
every buffer containing the token and no other method token is
classified by `parseResponse` to the corresponding decoder. (Of the
remaining tokens, `hello`/`portsend`/`portclose`/`goodbye` have no
response decoder, `ticket` is unroutable because its pivot is
`getticket`, and each of the others contains another listed token as a
substring, so its hypothesis is unsatisfiable.) -/
theorem parseResponse_solo_token (buffer t : Bytes) (d : Decoder)
    (hmem : (t, d) ∈ soloDispatchTable)
    (hc : bytesContains buffer t = true)
    (hother : ∀ u ∈ methodTokens, u ≠ t → bytesContains buffer u = false) :
    parseResponse buffer = .ok d := by
  simp only [soloDispatchTable, List.mem_cons, List.not_mem_nil, or_false,
    Prod.mk.injEq] at hmem
  rcases hmem with ⟨ht, hd⟩ | ⟨ht, hd⟩ | ⟨ht, hd⟩ | ⟨ht, hd⟩ | ⟨ht, hd⟩ | ⟨ht, hd⟩ <;>
    subst ht <;> subst hd
  · simp [parseResponse, portOpenPivot, hc]
  · have h1 := hother (strBytes ("portopen")) (by decide) (by decide)
    simp [parseResponse, portOpenPivot, blockPivot, hc, h1]
  · have h1 := hother (strBytes ("portopen")) (by decide) (by decide)
    have h2 := hother (strBytes ("getblock")) (by decide) (by decide)
    have h3 := hother (strBytes ("getblock2")) (by decide) (by decide)
    have h4 := hother (strBytes ("getblockheader")) (by decide) (by decide)
    have h5 := hother (strBytes ("getblockheader2")) (by decide) (by decide)
    have h6 := hother (strBytes ("getblockquick")) (by decide) (by decide)
    have h7 := hother (strBytes ("getblockquick2")) (by decide) (by decide)
    have h8 := hother (strBytes ("getblockpeak")) (by decide) (by decide)
    simp [parseResponse, portOpenPivot, blockPivot, block2Pivot, blockHeaderPivot,
      blockHeader2Pivot, blockquickPivot, blockquick2Pivot, blockPeakPivot,
      accountPivot, hc, h1, h2, h3, h4, h5, h6, h7, h8]
  · have h1 := hother (strBytes ("portopen")) (by decide) (by decide)
    have h2 := hother (strBytes ("getblock")) (by decide) (by decide)
    have h3 := hother (strBytes ("getblock2")) (by decide) (by decide)
    have h4 := hother (strBytes ("getblockheader")) (by decide) (by decide)
    have h5 := hother (strBytes ("getblockheader2")) (by decide) (by decide)
    have h6 := hother (strBytes ("getblockquick")) (by decide) (by decide)
    have h7 := hother (strBytes ("getblockquick2")) (by decide) (by decide)
    have h8 := hother (strBytes ("getblockpeak")) (by decide) (by decide)
    have h9 := hother (strBytes ("getaccount")) (by decide) (by decide)
    have h10 := hother (strBytes ("getaccountvalue")) (by decide) (by decide)
    have h11 := hother (strBytes ("getaccountroots")) (by decide) (by decide)
    simp [parseResponse, portOpenPivot, blockPivot, block2Pivot, blockHeaderPivot,
      blockHeader2Pivot, blockquickPivot, blockquick2Pivot, blockPeakPivot,
      accountPivot, accountValuePivot, accountRootsPivot, stateRootsPivot,
      hc, h1, h2, h3, h4, h5, h6, h7, h8, h9, h10, h11]
  · have h1 := hother (strBytes ("portopen")) (by decide) (by decide)
    have h2 := hother (strBytes ("getblock")) (by decide) (by decide)
    have h3 := hother (strBytes ("getblock2")) (by decide) (by decide)
    have h4 := hother (strBytes ("getblockheader")) (by decide) (by decide)
    have h5 := hother (strBytes ("getblockheader2")) (by decide) (by decide)
    have h6 := hother (strBytes ("getblockquick")) (by decide) (by decide)
    have h7 := hother (strBytes ("getblockquick2")) (by decide) (by decide)
    have h8 := hother (strBytes ("getblockpeak")) (by decide) (by decide)
    have h9 := hother (strBytes ("getaccount")) (by decide) (by decide)
    have h10 := hother (strBytes ("getaccountvalue")) (by decide) (by decide)
    have h11 := hother (strBytes ("getaccountroots")) (by decide) (by decide)
    have h12 := hother (strBytes ("getstateroots")) (by decide) (by decide)
    simp [parseResponse, portOpenPivot, blockPivot, block2Pivot, blockHeaderPivot,
      blockHeader2Pivot, blockquickPivot, blockquick2Pivot, blockPeakPivot,
      accountPivot, accountValuePivot, accountRootsPivot, stateRootsPivot,
      objectPivot, hc, h1, h2, h3, h4, h5, h6, h7, h8, h9, h10, h11, h12]
  · have h1 := hother (strBytes ("portopen")) (by decide) (by decide)
    have h2 := hother (strBytes ("getblock")) (by decide) (by decide)
    have h3 := hother (strBytes ("getblock2")) (by decide) (by decide)
    have h4 := hother (strBytes ("getblockheader")) (by decide) (by decide)
    have h5 := hother (strBytes ("getblockheader2")) (by decide) (by decide)
    have h6 := hother (strBytes ("getblockquick")) (by decide) (by decide)
    have h7 := hother (strBytes ("getblockquick2")) (by decide) (by decide)
    have h8 := hother (strBytes ("getblockpeak")) (by decide) (by decide)
    have h9 := hother (strBytes ("getaccount")) (by decide) (by decide)
    have h10 := hother (strBytes ("getaccountvalue")) (by decide) (by decide)
    have h11 := hother (strBytes ("getaccountroots")) (by decide) (by decide)
    have h12 := hother (strBytes ("getstateroots")) (by decide) (by decide)
    have h13 := hother (strBytes ("getobject")) (by decide) (by decide)
    simp [parseResponse, portOpenPivot, blockPivot, block2Pivot, blockHeaderPivot,
      blockHeader2Pivot, blockquickPivot, blockquick2Pivot, blockPeakPivot,
      accountPivot, accountValuePivot, accountRootsPivot, stateRootsPivot,
      objectPivot, nodePivot, hc, h1, h2, h3, h4, h5, h6, h7, h8, h9, h10,
      h11, h12, h13]

/-- Witness for C1 (amended) at the token `getstateroots`. -/
theorem parseResponse_solo_token_witness :
    parseResponse (strBytes ("getstateroots")) = .ok .stateRoots :=
  parseResponse_solo_token (strBytes ("getstateroots")) (strBytes ("getstateroots"))
    .stateRoots (by decide) (by decide) (by decide)

/-- C2: decode after encode is the identity on request records — for
every Go-representable record (`uint64` fields below `2^64`, slice
lengths below `2^64`), decoding the bytes `encodeRequest` produces
yields the original request id and record. -/
theorem decodeRequest_encodeRequest (requestID : Nat) (req : Request)
    (h1 : natOk requestID = true) (h2 : req.wf = true) :
    decodeRequest (encodeRequest requestID req) = some (requestID, req) := by
  have hok := itemOk_requestToItem requestID req h1 h2
  have hrt : rlpDecode (encodeRequest requestID req) =
      some (requestToItem requestID req) := rlpDecode_encodeItem _ hok
  rw [decodeRequest, hrt, requestToItem]
  simp [natItem, payloadToRequest_payloadArgs, natFromBe_beBytes]

/-- Witness for C2 at a concrete `portsend` record. -/
theorem decodeRequest_encodeRequest_witness :
    decodeRequest (encodeRequest 1 (.portsend 7 [1, 2, 3])) =
      some (1, .portsend 7 [1, 2, 3]) :=
  decodeRequest_encodeRequest 1 (.portsend 7 [1, 2, 3]) (by decide) (by decide)

/-- C3 (counterexample): on a buffer matching no inbound marker,
`parseInboundRequest` returns neither a request nor an error — the bare
`return` yields `(nil, nil)`, so the failure is silently dropped rather
than reported as `ErrResponseHandlerNotFound`. -/
theorem parseInboundRequest_silent_drop :
    parseInboundRequest (strBytes ("hello")) = (none, none) ∧
    (parseInboundRequest (strBytes ("hello"))).2 ≠
      some EdgeErr.responseHandlerNotFound :=
  ⟨by rfl, by decide⟩

/-- C3 (amended): a buffer matching no marker is rejected by
`parseResponse` with `ErrResponseHandlerNotFound`, but is silently
dropped by `parseInboundRequest`, which returns `(nil, nil)`. -/
theorem dispatch_no_marker (buffer : Bytes)
    (h1 : ∀ p ∈ responsePivots, bytesContains buffer p = false)
    (h2 : ∀ p ∈ inboundPivots, bytesContains buffer p = false) :
    parseResponse buffer = .error .responseHandlerNotFound ∧
    parseInboundRequest buffer = (none, none) := by
  simp only [responsePivots, inboundPivots, List.forall_mem_cons,
    List.forall_mem_nil, and_true] at h1 h2
  obtain ⟨ha, hb, hc, hd, he, hf, hg, hh, hi, hj, hk, hl, hm, hn, ho⟩ := h1
  obtain ⟨pa, pb, pc, pd⟩ := h2
  constructor
  · simp [parseResponse, ha, hb, hc, hd, he, hf, hg, hh, hi, hj, hk, hl, hm, hn, ho]
  · simp [parseInboundRequest, pa, pb, pc, pd]

/-- Witness for C3 (amended) at a one-byte buffer. -/
theorem dispatch_no_marker_witness :
    parseResponse [120] = .error .responseHandlerNotFound ∧
    parseInboundRequest [120] = (none, none) :=
  dispatch_no_marker [120] (by decide) (by decide)

/-- C4 (counterexample): a decodable `too_old` reply carrying a nonzero
block hash and counters yields a ticket holding only the error marker:
the server-supplied fields are dropped by the `too_old` branch. -/
theorem tooOld_reply_drops_fields :
    decodeTicketFields tooOldReplyBuf =
      some { requestID := 0, responseTag := strBytes ("response"),
             outcomeTag := strBytes ("too_old"), blockHash := [7],
             totalConnections := 1, totalBytes := 2, localAddr := [3],
             deviceSig := [4] } ∧
    parseDeviceTicketResponse tooOldReplyBuf =
      .ok { err := some .tooOld } ∧
    ({ err := some .tooOld } : DeviceTicket).blockHash ≠ [7] ∧
    ({ err := some .tooOld } : DeviceTicket).totalConnections ≠ 1 :=
  ⟨by rfl, by rfl, by decide, by decide⟩

/-- C4 (amended): of the three ticket-reply branches only `too_low`
returns the server-supplied fields (block hash, totals, local address,
device signature) alongside `ErrTicketTooLow`; the `thanks!` branch
returns the empty ticket and the `too_old` branch returns only the
`ErrTicketTooOld` marker with zero fields. -/
theorem parseDeviceTicketResponse_branches (buffer : Bytes) (t : DeviceTicket)
    (h : parseDeviceTicketResponse buffer = .ok t) :
    (bytesContains buffer ticketThanksPivot = true → t = {}) ∧
    (bytesContains buffer ticketThanksPivot = false →
     bytesContains buffer ticketTooLowPivot = true →
      ∃ p, decodeTicketFields buffer = some p ∧
        t = { blockHash := p.blockHash, totalConnections := p.totalConnections,
              totalBytes := p.totalBytes, localAddr := p.localAddr,
              deviceSig := p.deviceSig, err := some .tooLow }) ∧
    (bytesContains buffer ticketThanksPivot = false →
     bytesContains buffer ticketTooLowPivot = false →
     bytesContains buffer ticketTooOldPivot = true →
      t = { err := some .tooOld }) := by
  rw [parseDeviceTicketResponse] at h
  by_cases h1 : bytesContains buffer ticketThanksPivot = true
  · rw [if_pos h1] at h
    refine ⟨fun _ => ?_, fun hf => absurd h1 (by simp [hf]),
      fun hf => absurd h1 (by simp [hf])⟩
    rcases hdt : decodeTicketThanks buffer with _ | p <;> rw [hdt] at h
    · simp at h
    · injection h with h
      exact h.symm
  · rw [if_neg h1] at h
    by_cases h2 : bytesContains buffer ticketTooLowPivot = true
    · rw [if_pos h2] at h
      refine ⟨fun ht => absurd ht h1, fun _ _ => ?_,
        fun _ hl => absurd h2 (by simp [hl])⟩
      rcases hdt : decodeTicketFields buffer with _ | p <;> rw [hdt] at h
      · simp at h
      · injection h with h
        exact ⟨p, rfl, h.symm⟩
    · rw [if_neg h2] at h
      by_cases h3 : bytesContains buffer ticketTooOldPivot = true
      · rw [if_pos h3] at h
        refine ⟨fun ht => absurd ht h1, fun _ hl => absurd hl h2, fun _ _ _ => ?_⟩
        rcases hdt : decodeTicketFields buffer with _ | p <;> rw [hdt] at h
        · simp at h
        · injection h with h
          exact h.symm
      · rw [if_neg h3] at h
        simp at h

/-- Witness for C4 (amended): the `too_low` branch at a concrete reply
carries the decoded server fields. -/
theorem parseDeviceTicketResponse_branches_witness :
    ∃ p, decodeTicketFields tooLowReplyBuf = some p ∧
      ({ blockHash := [7], totalConnections := 1, totalBytes := 2,
         localAddr := [3], deviceSig := [4],
         err := some .tooLow } : DeviceTicket) =
      { blockHash := p.blockHash, totalConnections := p.totalConnections,
        totalBytes := p.totalBytes, localAddr := p.localAddr,
        deviceSig := p.deviceSig, err := some .tooLow } :=
  (parseDeviceTicketResponse_branches tooLowReplyBuf
    { blockHash := [7], totalConnections := 1, totalBytes := 2,
      localAddr := [3], deviceSig := [4], err := some .tooLow }
    (by rfl)).2.1 (by rfl) (by rfl)

/-- C5: a ticket reply containing the `thanks!` token that decodes as a
well-formed acknowledgement yields the void `DeviceTicket{}` — zero
counters, empty byte slices, no error. -/
theorem thanks_reply_void (buffer : Bytes) (rid : Nat) (rtag otag : Bytes)
    (hc : bytesContains buffer ticketThanksPivot = true)
    (hdec : decodeTicketThanks buffer = some (rid, rtag, otag)) :
    parseDeviceTicketResponse buffer = .ok {} ∧
    ({} : DeviceTicket).totalConnections = 0 ∧
    ({} : DeviceTicket).totalBytes = 0 ∧
    ({} : DeviceTicket).blockHash = [] ∧
    ({} : DeviceTicket).localAddr = [] ∧
    ({} : DeviceTicket).deviceSig = [] ∧
    ({} : DeviceTicket).serverSig = [] ∧
    ({} : DeviceTicket).err = none := by
  refine ⟨?_, rfl, rfl, rfl, rfl, rfl, rfl, rfl⟩
  rw [parseDeviceTicketResponse, if_pos hc, hdec]

/-- Witness for C5 at a concrete `thanks!` reply. -/
theorem thanks_reply_void_witness :
    parseDeviceTicketResponse thanksReplyBuf = .ok {} ∧
    ({} : DeviceTicket).totalConnections = 0 ∧
    ({} : DeviceTicket).totalBytes = 0 ∧
    ({} : DeviceTicket).blockHash = [] ∧
    ({} : DeviceTicket).localAddr = [] ∧
    ({} : DeviceTicket).deviceSig = [] ∧
    ({} : DeviceTicket).serverSig = [] ∧
    ({} : DeviceTicket).err = none :=
  thanks_reply_void thanksReplyBuf 0 (strBytes ("response"))
    (strBytes ("thanks!")) (by decide) (by rfl)

/-- C6: a ticket reply containing none of the outcome tokens `thanks!`,
`too_low`, `too_old` fails with `ErrFailedToParseTicket` and returns no
ticket. -/
theorem unknown_ticket_reply_rejected (buffer : Bytes)
    (h1 : bytesContains buffer ticketThanksPivot = false)
    (h2 : bytesContains buffer ticketTooLowPivot = false)
    (h3 : bytesContains buffer ticketTooOldPivot = false) :
    parseDeviceTicketResponse buffer = .error .failedToParseTicket := by
  rw [parseDeviceTicketResponse, if_neg (by simp [h1]), if_neg (by simp [h2]),
    if_neg (by simp [h3])]

/-- Witness for C6 at the empty buffer. -/
theorem unknown_ticket_reply_rejected_witness :
    parseDeviceTicketResponse [] = .error .failedToParseTicket :=
  unknown_ticket_reply_rejected [] (by rfl) (by rfl) (by rfl)

/-- C7: a block-header response whose recomputed header hash differs
from the supplied `block_hash` field fails with the hash-mismatch error
and returns no header, for any external pubkey-decompression and
header-hash functions. -/
theorem blockHeader_hash_mismatch_rejected (decompress : Bytes → Bytes)
    (headerHash : BlockHeader → Bytes) (buffer : Bytes)
    (items : List (Bytes × Bytes)) (minerPubkey : Bytes)
    (hdec : decodeBlockHeaderResponse buffer = some (items, minerPubkey))
    (hne : headerHash (assembleHeader decompress items minerPubkey) ≠
      findItemValue items (strBytes ("block_hash"))) :
    parseBlockHeaderResponse decompress headerHash buffer =
      .error .blockHashMismatch := by
  rw [parseBlockHeaderResponse, hdec]
  simp [hne]

/-- Witness for C7: a concrete response claiming block hash `[1]` under
externals that hash every header to `[]`. -/
theorem blockHeader_hash_mismatch_rejected_witness :
    parseBlockHeaderResponse (fun pk => pk) (fun _ => []) headerReplyBuf =
      .error .blockHashMismatch :=
  blockHeader_hash_mismatch_rejected (fun pk => pk) (fun _ => []) headerReplyBuf
    [(strBytes ("block_hash"), [1])] [5] (by rfl) (by decide)

/-- C8 (counterexample): `goodbye` and `getblockheader` are wire-format
method tokens, yet `NewMessage` rejects them with `ErrRPCNotSupport`
(the `switch` has no case for `goodbye`, `getblock2`, `getblockheader`
or `getblockquick`). -/
theorem NewMessage_goodbye_not_supported :
    strBytes ("goodbye") ∈ methodTokens ∧
    NewMessage 0 (strBytes ("goodbye")) [] = .err .rpcNotSupport ∧
    strBytes ("getblockheader") ∈ methodTokens ∧
    NewMessage 0 (strBytes ("getblockheader")) [.num 5] = .err .rpcNotSupport :=
  ⟨by decide, by rfl, by decide, by rfl⟩

/-- C8 (amended): `NewMessage` returns `ErrRPCNotSupport` exactly for
methods outside its 15-case `switch` — which omits the wire tokens
`goodbye`, `getblock2`, `getblockheader` and `getblockquick` — and for
every method of the switch some well-typed argument list produces
encoded request bytes. -/
theorem NewMessage_method_support (requestID : Nat) (method : Bytes)
    (args : List Arg) :
    (NewMessage requestID method args = .err .rpcNotSupport ↔
      method ∉ newMessageMethods) ∧
    (method ∈ newMessageMethods →
      ∃ wellTyped encoded dec,
        NewMessage requestID method wellTyped = .ok encoded dec) := by
  have hnotin : method ∉ newMessageMethods →
      NewMessage requestID method args = .err .rpcNotSupport := by
    intro hnot
    simp only [newMessageMethods, List.mem_cons, List.not_mem_nil, or_false] at hnot
    push_neg at hnot
    obtain ⟨m1, m2, m3, m4, m5, m6, m7, m8, m9, m10, m11, m12, m13, m14, m15⟩ := hnot
    rw [NewMessage.eq_def, if_neg m1, if_neg m2, if_neg m3, if_neg m4, if_neg m5,
      if_neg m6, if_neg m7, if_neg m8, if_neg m9, if_neg m10, if_neg m11,
      if_neg m12, if_neg m13, if_neg m14, if_neg m15]
  have hin : method ∈ newMessageMethods →
      NewMessage requestID method args ≠ .err .rpcNotSupport := by
    intro hm
    simp only [newMessageMethods, List.mem_cons, List.not_mem_nil, or_false] at hm
    rcases hm with h | h | h | h | h | h | h | h | h | h | h | h | h | h | h <;>
        subst h <;>
      · intro hcontra
        simp +decide [NewMessage.eq_def] at hcontra
        try split at hcontra <;> simp at hcontra
  constructor
  · by_cases hmem : method ∈ newMessageMethods
    · exact iff_of_false (hin hmem) (by simp [hmem])
    · exact iff_of_true (hnotin hmem) hmem
  · intro hmem
    simp only [newMessageMethods, List.mem_cons, List.not_mem_nil, or_false] at hmem
    rcases hmem with h | h | h | h | h | h | h | h | h | h | h | h | h | h | h <;>
      subst h
    · exact ⟨[.num 0], encodeRequest requestID (.hello 0), none, by rfl⟩
    · exact ⟨[.num 0, .bytes []], encodeRequest requestID (.portsend 0 []), none,
        by rfl⟩
    · exact ⟨[.num 0], encodeRequest requestID (.portclose 0), none, by rfl⟩
    · exact ⟨[.num 0], encodeRequest requestID (.getblock 0), some .block, by rfl⟩
    · exact ⟨[], encodeRequest requestID .getblockpeak, some .blockPeak, by rfl⟩
    · exact ⟨[.num 0], encodeRequest requestID (.getblockheader2 0),
        some .blockHeader, by rfl⟩
    · exact ⟨[.num 0, .num 0], encodeRequest requestID (.getblockquick2 0 0),
        some .blockquick, by rfl⟩
    · exact ⟨[.num 0, .bytes []], encodeRequest requestID (.getaccount 0 []),
        some .account, by rfl⟩
    · exact ⟨[.num 0, .bytes []], encodeRequest requestID (.getaccountroots 0 []),
        some .accountRoots, by rfl⟩
    · exact ⟨[.num 0, .bytes [], .bytes []],
        encodeRequest requestID (.getaccountvalue 0 [] []), some .accountValue,
        by rfl⟩
    · exact ⟨[.num 0, .bytes [], .num 0, .num 0, .bytes [], .bytes []],
        encodeRequest requestID (.ticket 0 [] 0 0 [] []), some .deviceTicket,
        by rfl⟩
    · exact ⟨[.bytes [], .num 0, .str []],
        encodeRequest requestID (.portopen [] 0 []), some .portOpen, by rfl⟩
    · exact ⟨[.bytes []], encodeRequest requestID (.getobject []),
        some .deviceObject, by rfl⟩
    · exact ⟨[.bytes []], encodeRequest requestID (.getnode []), some .serverObj,
        by rfl⟩
    · exact ⟨[.num 0], encodeRequest requestID (.getstateroots 0),
        some .stateRoots, by rfl⟩

/-- Witness for C8 (amended) at the `ticket` method. -/
theorem NewMessage_method_support_witness :
    ∃ wellTyped encoded dec,
      NewMessage 0 (strBytes ("ticket")) wellTyped = .ok encoded dec :=
  (NewMessage_method_support 0 (strBytes ("ticket")) []).2 (by decide)

/-- C9: `parseError` never reports an error to the caller (the second
component of the Go return pair is always nil), and whenever the
decoded error envelope has an empty payload — in particular whenever
the decode itself failed and left the zero struct — the
`Payload[len(Payload)-1]` access is out of bounds, a runtime panic:
the operation is not total on arbitrary input. -/
theorem parseError_no_error_and_empty_payload_fault (buffer : Bytes) :
    (∀ r, parseError buffer = some r → r.2 = none) ∧
    ((decodeErrorPayload buffer).getD [] = [] → parseError buffer = none) := by
  constructor
  · intro r hr
    simp only [parseError] at hr
    split at hr
    · injection hr with hr
      rw [← hr]
    · exact absurd hr (by simp)
  · intro hempty
    simp only [parseError, hempty]
    rfl

/-- Witness for C9: the empty buffer does not decode, so the payload is
the zero value and the access faults; a decodable error envelope
returns a nil error. -/
theorem parseError_no_error_witness :
    parseError [] = none ∧
    (({ message := [7] }, none) : GoError × Option EdgeErr).2 = none :=
  ⟨(parseError_no_error_and_empty_payload_fault []).2 (by rfl),
   (parseError_no_error_and_empty_payload_fault errorReplyBuf).1
     ({ message := [7] }, none) (by rfl)⟩

/-- C10: when the buffer does not decode as a response envelope,
`ResponseID` discards the decode error and returns request id 0 — the
same value a genuine envelope with request id 0 yields, so the two are
indistinguishable to the caller. -/
theorem ResponseID_zero_on_undecodable (buffer : Bytes) :
    (decodeResponseID buffer = none → ResponseID buffer = 0) ∧
    ResponseID (encodeRequest 0 .getblockpeak) = 0 := by
  constructor
  · intro h
    rw [ResponseID, h]
  · have hok : itemOk (requestToItem 0 .getblockpeak) = true :=
      itemOk_requestToItem 0 .getblockpeak (by decide) (by decide)
    have hrt := rlpDecode_encodeItem _ hok
    rw [ResponseID, decodeResponseID, encodeRequest, hrt, requestToItem]
    simp [natItem, natFromBe_beBytes]

/-- Witness for C10 at an undecodable two-byte buffer. -/
theorem ResponseID_zero_witness :
    ResponseID [1, 2] = 0 ∧ ResponseID (encodeRequest 0 .getblockpeak) = 0 :=
  ⟨(ResponseID_zero_on_undecodable [1, 2]).1 (by rfl),
   (ResponseID_zero_on_undecodable [1, 2]).2⟩

end Edge
